import Mathlib

/-!
Shallow embedding of the AgroBot analytics core.

Sources embedded:
- src/utils/data_processing.py  (DataProcessor: process_sensor_data,
  _calculate_statistics, _analyze_trends, _detect_anomalies, _assess_data_quality)
- src/services/agricultural_ai.py  (AgriculturalAI.generate_recommendations and
  its five analyzers)
- src/components/alerts.py  (AlertSystem._check_sensor_alerts)

Modelling conventions:
- Python/numpy floating point is modelled by exact rationals.  A finite float
  division by an exact zero does not raise in numpy; it produces a non-finite
  value (inf or NaN).  Such results are modelled as `none : Option ℚ`.
- Comparisons of the shape `|x| > c·σ` where σ is a nonnegative square root are
  transcribed to the equivalent comparisons of squares, so every definition
  stays inside ℚ and is executable.  Each such transcription is noted at the
  definition site.
- A Python value in a sensor dict is either float-convertible (`PyVal.num`) or
  not (`PyVal.bad`, covering None, blank and non-numeric strings); `float()`
  applied to a `bad` value raises, which is modelled with `Except Unit`.
- Presentation strings built with f-string interpolation (the `reason`,
  `message`, `timing`, `mitigation` texts) are display text fully determined by
  the branch taken and its numeric arguments; records keep the branch identity
  (priority, action or title literal) and the numeric state, not the rendered
  text.
-/

/-- A value stored under a sensor-field key in a Python dict: either a
float-convertible number or a value (None, blank string, non-numeric string)
on which `float()` raises. -/
inductive PyVal where
  | num (q : ℚ)
  | bad
  deriving DecidableEq, Repr

/-- Result of the stored ISO-8601 timestamp of a reading: absent key,
unparsable text, or a parsed instant.  The instant is kept as minutes on a
common clock plus the calendar month (the only two projections the code
uses). -/
inductive TS where
  | absent
  | bad
  | good (t : ℚ) (month : ℕ)
  deriving DecidableEq, Repr

/-- The eight sensor fields, in the order of `DataProcessor.sensor_fields`. -/
inductive SField where
  | temperature | humidity | ph | nitrogen
  | phosphorus | potassium | conductivity | tds
  deriving DecidableEq, Repr

/-- `DataProcessor.sensor_fields` (also the `expected_fields` list of
`_assess_data_quality`), in source order. -/
def allFields : List SField :=
  [.temperature, .humidity, .ph, .nitrogen, .phosphorus, .potassium, .conductivity, .tds]

/-- `critical_fields` of `_assess_data_quality`. -/
def criticalFields : List SField := [.temperature, .humidity, .ph]

/-- A current sensor reading: the dict mapping field names to values, plus the
optional timestamp entry.  `none` for a field means the key is absent. -/
structure Reading where
  temperature : Option PyVal := none
  humidity : Option PyVal := none
  ph : Option PyVal := none
  nitrogen : Option PyVal := none
  phosphorus : Option PyVal := none
  potassium : Option PyVal := none
  conductivity : Option PyVal := none
  tds : Option PyVal := none
  timestamp : TS := .absent
  deriving DecidableEq, Repr

/-- Dict lookup `data[field]` / `field in data` for the eight sensor keys. -/
def Reading.get (r : Reading) : SField → Option PyVal
  | .temperature => r.temperature
  | .humidity => r.humidity
  | .ph => r.ph
  | .nitrogen => r.nitrogen
  | .phosphorus => r.phosphorus
  | .potassium => r.potassium
  | .conductivity => r.conductivity
  | .tds => r.tds

/-- Python truthiness `not current_data` for a reading restricted to the
modelled key set: the dict is empty iff no sensor key and no timestamp key is
present. -/
def Reading.isEmpty (r : Reading) : Bool :=
  r.temperature.isNone && r.humidity.isNone && r.ph.isNone && r.nitrogen.isNone &&
  r.phosphorus.isNone && r.potassium.isNone && r.conductivity.isNone && r.tds.isNone &&
  (match r.timestamp with | .absent => true | _ => false)

/-- One row of the historical DataFrame: per-field numeric value or null
(NaN).  Historical columns are numeric, values optionally null. -/
structure HRow where
  temperature : Option ℚ := none
  humidity : Option ℚ := none
  ph : Option ℚ := none
  nitrogen : Option ℚ := none
  phosphorus : Option ℚ := none
  potassium : Option ℚ := none
  conductivity : Option ℚ := none
  tds : Option ℚ := none
  deriving DecidableEq, Repr

/-- Cell of a historical row for a given field. -/
def HRow.get (r : HRow) : SField → Option ℚ
  | .temperature => r.temperature
  | .humidity => r.humidity
  | .ph => r.ph
  | .nitrogen => r.nitrogen
  | .phosphorus => r.phosphorus
  | .potassium => r.potassium
  | .conductivity => r.conductivity
  | .tds => r.tds

/-- The historical DataFrame: which sensor columns exist (`field in
df.columns`) and the ordered rows.  `df.empty` is `rows = []` and `len(df)` is
`rows.length`. -/
structure Hist where
  cols : SField → Bool
  rows : List HRow

/-- `df[field].dropna()`: the non-null values of a column in row order. -/
def colValues (hist : Hist) (f : SField) : List ℚ :=
  (hist.rows.map (fun r => r.get f)).filterMap id

/-- Mean of a list, `series.mean()` (never called on an empty list by the
guarded call sites). -/
def meanQ (xs : List ℚ) : ℚ := xs.sum / (xs.length : ℚ)

/-- Sample variance with ddof = 1, the square of `series.std()`; call sites
guard `xs.length ≥ 2` (pandas returns NaN for a single point). -/
def sampleVar (xs : List ℚ) : ℚ :=
  (xs.map (fun x => (x - meanQ xs) ^ 2)).sum / ((xs.length : ℚ) - 1)

/-- Finite-float division.  numpy/pandas division of a finite float by exact
zero raises nothing and yields a non-finite value (±inf, or NaN for 0/0),
modelled as `none`. -/
def floatDiv (a b : ℚ) : Option ℚ := if b = 0 then none else some (a / b)

/-- Python `int()` applied to a float: truncation toward zero. -/
def pyTrunc (q : ℚ) : ℤ := if 0 ≤ q then ⌊q⌋ else -⌊-q⌋

/-- Linear interpolation between adjacent order statistics of an (already
sorted) list at fractional position h: the value at index ⌊h⌋ plus the
fractional part times the gap to the next order statistic. -/
def interpSorted (s : List ℚ) (h : ℚ) : ℚ :=
  let i := (⌊h⌋).toNat
  let j := min (i + 1) (s.length - 1)
  s.getD i 0 + (h - (i : ℚ)) * (s.getD j 0 - s.getD i 0)

/-- The linear-interpolation quantile used by `series.quantile(q)` (pandas
default method): with the values sorted ascending and h = q·(n−1), the result
interpolates between the order statistics at ⌊h⌋ and ⌊h⌋+1. -/
def quantileLinear (xs : List ℚ) (q : ℚ) : ℚ :=
  let s := xs.insertionSort (· ≤ ·)
  interpSorted s (q * ((s.length : ℚ) - 1))

/-- Per-field statistics record of `_calculate_statistics`.  `stdSq` is the
square of the sample std (`series.std()`, an irrational square root in
general); it is `none` when `count = 1`, where pandas produces NaN. -/
structure Stats where
  mean : ℚ
  median : ℚ
  stdSq : Option ℚ
  min : ℚ
  max : ℚ
  q25 : ℚ
  q75 : ℚ
  count : ℕ
  deriving DecidableEq, Repr

/-- Statistics of the non-null values of one column; `none` when no non-null
value exists (the field then gets no entry).  `min`/`max` are read off the
sorted values; `series.median()` equals the linear 0.5 quantile. -/
def statsOfValues (xs : List ℚ) : Option Stats :=
  if xs.isEmpty then none
  else
    some ⟨meanQ xs, quantileLinear xs (1/2),
          if 2 ≤ xs.length then some (sampleVar xs) else none,
          (xs.insertionSort (· ≤ ·)).getD 0 0,
          (xs.insertionSort (· ≤ ·)).getD ((xs.insertionSort (· ≤ ·)).length - 1) 0,
          quantileLinear xs (1/4), quantileLinear xs (3/4), xs.length⟩

/-- `DataProcessor._calculate_statistics`: per present column with at least
one non-null value, the statistics record, in field order. -/
def calculateStatistics (hist : Hist) : List (SField × Stats) :=
  allFields.filterMap (fun f =>
    if hist.cols f then (statsOfValues (colValues hist f)).map (fun s => (f, s)) else none)

/-- Per-field trend record of `_analyze_trends`.  The Pearson correlation of
`np.corrcoef(arange(n), y)` equals `cov / √denSq` (NaN when `denSq = 0`, e.g.
constant values; comparisons against NaN are false).  `cov` is the centred
cross sum Σ(i−x̄)(yᵢ−ȳ) and `denSq = Σ(i−x̄)²·Σ(yᵢ−ȳ)²`; the scaling factors of
the covariance cancel in the ratio, so these two rationals determine both the
correlation and the strength = |correlation| exactly.  `changePct` is `none`
when the float result is non-finite (division by a zero previous mean). -/
structure Trend where
  direction : String
  cov : ℚ
  denSq : ℚ
  changePct : Option ℚ
  deriving DecidableEq, Repr

/-- Trend of one column with n = xs.length ≥ 3 non-null values.  The tests
`correlation > 0.1` and `correlation < -0.1` are transcribed to the equivalent
sign test plus comparison of squares (`cov > 0 ∧ cov² > 0.01·denSq`), exact
because √denSq ≥ 0; both are false when denSq = 0 (NaN correlation), matching
numpy. -/
def trendOf (xs : List ℚ) : Trend :=
  let n := xs.length
  let xbar := ((n : ℚ) - 1) / 2
  let ybar := meanQ xs
  let cov := (xs.enum.map (fun p => ((p.1 : ℚ) - xbar) * (p.2 - ybar))).sum
  let varx := ((List.range n).map (fun i => ((i : ℚ) - xbar) ^ 2)).sum
  let vary := (xs.map (fun y => (y - ybar) ^ 2)).sum
  let denSq := varx * vary
  let dir :=
    if cov > 0 ∧ cov ^ 2 > 0.01 * denSq then "increasing"
    else if cov < 0 ∧ cov ^ 2 > 0.01 * denSq then "decreasing"
    else "stable"
  let changePct :=
    if 10 ≤ n then
      let recentMean := meanQ (xs.drop (n - 5))
      let previousMean := meanQ ((xs.drop (n - 10)).take 5)
      (floatDiv (recentMean - previousMean) previousMean).map (fun z => z * 100)
    else some 0
  ⟨dir, cov, denSq, changePct⟩

/-- `DataProcessor._analyze_trends`: empty when the frame has fewer than 3
rows; otherwise one trend per present column with ≥3 non-null values. -/
def analyzeTrends (hist : Hist) : List (SField × Trend) :=
  if hist.rows.length < 3 then []
  else
    allFields.filterMap (fun f =>
      if hist.cols f then
        let xs := colValues hist f
        if 3 ≤ xs.length then some (f, trendOf xs) else none
      else none)

/-- Anomaly record of `_detect_anomalies`.  `varS` is the square of the
historical sample std; `expected_range = mean ± 2·√varS` and `z_score =
(currentValue − mean)/√varS` are determined by the stored rationals.  When
`varS = 0` the emitted z-score is an IEEE infinity (the guard condition forced
`currentValue ≠ mean`), whose absolute value exceeds 3, hence severity
`high`. -/
structure Anomaly where
  field : SField
  currentValue : ℚ
  mean : ℚ
  varS : ℚ
  severity : String
  deriving DecidableEq, Repr

/-- One field of `_detect_anomalies`: skip unless the field is in the current
dict and the column exists with ≥10 non-null points; arithmetic on a
non-numeric current value raises (TypeError).  `|current − mean| > 2·std` and
`|z| > 3` are transcribed to comparisons of squares (both sides
nonnegative). -/
def anomalyFor (cur : Reading) (hist : Hist) (f : SField) : Except Unit (List Anomaly) :=
  match cur.get f, hist.cols f with
  | some v, true =>
    let xs := colValues hist f
    if 10 ≤ xs.length then
      match v with
      | .bad => .error ()
      | .num c =>
        let m := meanQ xs
        let varS := sampleVar xs
        if (c - m) ^ 2 > 4 * varS then
          .ok [⟨f, c, m, varS,
                if varS = 0 then "high"
                else if (c - m) ^ 2 > 9 * varS then "high" else "medium"⟩]
        else .ok []
    else .ok []
  | _, _ => .ok []

/-- `DataProcessor._detect_anomalies`, iterating the sensor fields in
order. -/
def detectAnomalies (cur : Reading) (hist : Hist) : Except Unit (List Anomaly) := do
  let ls ← allFields.mapM (anomalyFor cur hist)
  pure ls.flatten

/-- The data-quality dict of `_assess_data_quality`.  `lastUpdate` is the
whole-minute count rendered into the `"N minutes ago"` string (`none` when the
key keeps its initial `None`); `anomalyCount` is `none` on the early offline
return, where the key is never added. -/
structure Quality where
  freshness : String
  completeness : ℚ
  reliability : ℚ
  lastUpdate : Option ℤ
  sensorStatus : String
  anomalyCount : Option ℕ
  deriving DecidableEq, Repr

/-- Is a dict value present and float-convertible (the completeness test of
`_assess_data_quality`)?  Absent keys, None, blank strings and non-numeric
strings all fail it. -/
def isNumV : Option PyVal → Bool
  | some (.num _) => true
  | _ => false

/-- Numeric content of a present convertible value (call sites guard
`isNumV`). -/
def numOf : Option PyVal → ℚ
  | some (.num q) => q
  | _ => 0

/-- Decidable membership `field in critical_fields` of
`_assess_data_quality`, as a Boolean predicate. -/
def inCriticalFields : SField → Bool
  | .temperature => true
  | .humidity => true
  | .ph => true
  | _ => false

/-- Freshness bucketing of `_assess_data_quality` from the age of the reading
in minutes: (freshness, sensor_status, last_update). -/
def freshnessInfo (minutesOld : ℚ) : String × String × Option ℤ :=
  if minutesOld < 5 then ("excellent", "online", some (pyTrunc minutesOld))
  else if minutesOld < 15 then ("good", "online", some (pyTrunc minutesOld))
  else if minutesOld < 60 then ("fair", "delayed", some (pyTrunc minutesOld))
  else if minutesOld < 360 then ("poor", "intermittent", some (pyTrunc minutesOld))
  else ("stale", "offline", some (pyTrunc minutesOld))

/-- The freshness triple derived from the optional timestamp entry: the
`try/except` around `datetime.fromisoformat` leaves `unknown/error` on an
unparsable value, and the initial `unknown/unknown` stands when the key is
absent; otherwise the age in minutes against the wall clock is bucketed. -/
def timestampInfo (now : ℚ) (ts : TS) : String × String × Option ℤ :=
  match ts with
  | .absent => ("unknown", "unknown", none)
  | .bad => ("unknown", "error", none)
  | .good t _ => freshnessInfo (now - t)

/-- The per-field reliability penalty ladder of `_assess_data_quality`,
folded over the present convertible fields: updates (score, anomaly_count). -/
def rangePenalty (f : SField) (v : ℚ) (sa : ℚ × ℕ) : ℚ × ℕ :=
  match f with
  | .temperature =>
    if ¬(-20 ≤ v ∧ v ≤ 70) then (sa.1 - 15, sa.2 + 1)
    else if v < -10 ∨ v > 55 then (sa.1 - 5, sa.2) else sa
  | .humidity =>
    if ¬(0 ≤ v ∧ v ≤ 100) then (sa.1 - 15, sa.2 + 1)
    else if v > 95 ∨ v < 5 then (sa.1 - 5, sa.2) else sa
  | .ph =>
    if ¬(0 ≤ v ∧ v ≤ 14) then (sa.1 - 20, sa.2 + 1)
    else if v < 3 ∨ v > 11 then (sa.1 - 10, sa.2) else sa
  | .nitrogen =>
    if v < 0 ∨ v > 200 then (sa.1 - 10, sa.2 + 1) else sa
  | .phosphorus =>
    if v < 0 ∨ v > 200 then (sa.1 - 10, sa.2 + 1) else sa
  | .potassium =>
    if v < 0 ∨ v > 200 then (sa.1 - 10, sa.2 + 1) else sa
  | .conductivity =>
    if v < 0 ∨ v > 5000 then (sa.1 - 10, sa.2 + 1) else sa
  | .tds =>
    if v < 0 ∨ v > 3000 then (sa.1 - 10, sa.2 + 1) else sa

/-- `DataProcessor._assess_data_quality`.  The wall clock read through
`datetime.now()` is made the explicit parameter `now` (minutes, same clock as
parsed timestamps).  The historical frame parameter is accepted and unused,
as in the source. -/
def assessDataQuality (now : ℚ) (data : Reading) (_hist : Hist) : Quality :=
  if data.isEmpty then ⟨"unknown", 0, 0, none, "offline", none⟩
  else
    let fsu : String × String × Option ℤ := timestampInfo now data.timestamp
    let present := allFields.filter (fun f => isNumV (data.get f))
    let criticalPresent := present.filter inCriticalFields
    let baseCompleteness := ((present.length : ℚ) / (allFields.length : ℚ)) * 100
    let criticalCompleteness := ((criticalPresent.length : ℚ) / (criticalFields.length : ℚ)) * 100
    let completeness := baseCompleteness * 0.6 + criticalCompleteness * 0.4
    let sa := present.foldl (fun sa f => rangePenalty f (numOf (data.get f)) sa) ((100 : ℚ), (0 : ℕ))
    let score :=
      if SField.conductivity ∈ present ∧ SField.tds ∈ present then
        let c := numOf data.conductivity
        let t := numOf data.tds
        let expectedTds := c * 0.65
        if |t - expectedTds| > expectedTds * 0.5 then sa.1 - 8 else sa.1
      else sa.1
    ⟨fsu.1, completeness, max 0 (min 100 score), fsu.2.2, fsu.2.1, some sa.2⟩

/-- The ProcessedData dict built by `process_sensor_data` when the current
reading is non-empty. -/
structure ProcessedData where
  current : Reading
  statistics : List (SField × Stats)
  trends : List (SField × Trend)
  anomalies : List Anomaly
  dataQuality : Quality
  deriving DecidableEq, Repr

/-- `DataProcessor.process_sensor_data`.  `now` is the wall clock consumed by
`_assess_data_quality`; `none` for the current reading models a missing
(None) argument; the result `none` models the empty dict `\x7b\x7d` returned on a
missing or empty reading; errors are Python exceptions escaping (a non-numeric
current value reaching the anomaly arithmetic). -/
def processSensorData (now : ℚ) (currentData : Option Reading) (historicalData : Hist) :
    Except Unit (Option ProcessedData) :=
  match currentData with
  | none => .ok none
  | some r =>
    if r.isEmpty then .ok none
    else if historicalData.rows.isEmpty then
      .ok (some ⟨r, [], [], [], assessDataQuality now r historicalData⟩)
    else do
      let a ← detectAnomalies r historicalData
      pure (some ⟨r, calculateStatistics historicalData, analyzeTrends historicalData, a,
                  assessDataQuality now r historicalData⟩)

/-- A weather snapshot dict; only the keys `generate_recommendations` and its
analyzers read are modelled. -/
structure Weather where
  temperature : Option PyVal := none
  humidity : Option PyVal := none
  windSpeed : Option PyVal := none
  deriving DecidableEq, Repr

/-- The value under a `rain`/`precipitation` key of a forecast point: either
the OpenWeather dict shape `\x7b"3h": v\x7d` (numeric payload, optionally absent)
or a scalar fed to `float()`. -/
inductive RainV where
  | dict3h (v : Option ℚ)
  | scalar (v : PyVal)
  deriving DecidableEq, Repr

/-- One forecast point; only the keys read by the engine are modelled. -/
structure Forecast where
  rain : Option RainV := none
  precipitation : Option RainV := none
  windSpeed : Option PyVal := none
  temperature : Option PyVal := none
  deriving DecidableEq, Repr

/-- A recommendation, identified by its priority and `action` literal; the
interpolated `reason` and `timing` strings are presentation text determined
by the same branch. -/
structure Rec where
  priority : String
  action : String
  deriving DecidableEq, Repr

/-- A risk entry of `_assess_agricultural_risks`, identified by its priority
and `type` literal. -/
structure Risk where
  priority : String
  rtype : String
  deriving DecidableEq, Repr

/-- The category map returned by `generate_recommendations`. -/
structure RecMap where
  irrigation : List Rec
  fertilization : List Rec
  timing : List Rec
  riskAssessment : List Risk
  general : List Rec
  deriving DecidableEq, Repr

/-- The slice of a data_quality dict read by
`_generate_general_recommendations` (`.get` with defaults `"unknown"` and
`0`). -/
structure DQIn where
  freshness : String := "unknown"
  completeness : ℚ := 0
  deriving DecidableEq, Repr

/-- The `sensor_data` argument of `generate_recommendations`: a dict that may
carry a `current` reading and a `data_quality` dict. -/
structure SensorDataArg where
  current : Option Reading := none
  dataQuality : Option DQIn := none
  deriving DecidableEq, Repr

/-- `float(d.get(key, default))`: absent key falls back to the numeric
default, a convertible value converts, anything else raises. -/
def floatConv (v : Option PyVal) (d : ℚ) : Except Unit ℚ :=
  match v with
  | none => .ok d
  | some (.num q) => .ok q
  | some .bad => .error ()

/-- Adding one forecast point of rain: the dict shape contributes its `3h`
payload (default 0), a scalar goes through `float()`. -/
def addRain (acc : ℚ) : RainV → Except Unit ℚ
  | .dict3h v => .ok (acc + v.getD 0)
  | .scalar pv =>
    match pv with
    | .num q => .ok (acc + q)
    | .bad => .error ()

/-- The rainfall accumulation of `_analyze_irrigation_needs` over the first 8
forecast points: `rain_key` is `rain` when that key exists, else
`precipitation`; points without the chosen key contribute nothing. -/
def upcomingRain (fc : List Forecast) : Except Unit ℚ :=
  (fc.take 8).foldlM (fun acc f =>
    match f.rain with
    | some rv => addRain acc rv
    | none =>
      match f.precipitation with
      | some rv => addRain acc rv
      | none => .ok acc) 0

/-- `AgriculturalAI._analyze_irrigation_needs`.  `air_humidity` is converted
(and can raise) but never read by the decision ladder. -/
def analyzeIrrigationNeeds (cur : Reading) (w : Option Weather) (fc : List Forecast) :
    Except Unit (List Rec) := do
  let soilHumidity ← floatConv cur.humidity 0
  let _airHumidity ← match w with
    | some wd => floatConv wd.humidity 50
    | none => pure (50 : ℚ)
  let currentTemp ← floatConv cur.temperature 25
  let rain ← upcomingRain fc
  let moistureRecs : List Rec :=
    if soilHumidity < 25 then
      if rain > 10 then [⟨"medium", "Light irrigation before expected rain"⟩]
      else [⟨if currentTemp > 28 then "high" else "medium", "Immediate deep irrigation required"⟩]
    else if soilHumidity < 40 then
      if rain > 5 then [⟨"low", "Monitor soil conditions"⟩]
      else [⟨"medium", "Moderate irrigation recommended"⟩]
    else if soilHumidity > 75 then [⟨"low", "Reduce or skip irrigation"⟩]
    else []
  let heatRecs : List Rec :=
    if currentTemp > 32 ∧ soilHumidity < 50 then [⟨"high", "Heat stress mitigation irrigation"⟩]
    else []
  pure (moistureRecs ++ heatRecs)

/-- `AgriculturalAI._analyze_fertilization_needs`. -/
def analyzeFertilizationNeeds (cur : Reading) : Except Unit (List Rec) := do
  let nitrogen ← floatConv cur.nitrogen 0
  let phosphorus ← floatConv cur.phosphorus 0
  let potassium ← floatConv cur.potassium 0
  let ph ← floatConv cur.ph 7
  let conductivity ← floatConv cur.conductivity 0
  let nRecs : List Rec :=
    if nitrogen < 10 then [⟨"high", "Emergency nitrogen application"⟩]
    else if nitrogen < 20 then [⟨"medium", "Nitrogen supplementation needed"⟩]
    else if nitrogen > 60 then [⟨"medium", "Reduce nitrogen inputs"⟩]
    else []
  let pRecs : List Rec :=
    if phosphorus < 8 then [⟨"high", "Phosphorus fertilization critical"⟩]
    else if phosphorus < 15 then [⟨"medium", "Increase phosphorus application"⟩]
    else if phosphorus > 50 then [⟨"low", "Reduce phosphorus applications"⟩]
    else []
  let kRecs : List Rec :=
    if potassium < 12 then [⟨"high", "Potassium supplementation urgent"⟩]
    else if potassium < 20 then [⟨"medium", "Increase potassium levels"⟩]
    else []
  let phRecs : List Rec :=
    if ph < 5.8 then [⟨"high", "Immediate soil pH correction with lime"⟩]
    else if ph > 7.8 then [⟨"high", "Lower soil pH with sulfur amendments"⟩]
    else if 5.8 ≤ ph ∧ ph ≤ 6.2 then [⟨"medium", "Light lime application recommended"⟩]
    else []
  let ecRecs : List Rec :=
    if conductivity > 250 then [⟨"high", "Address soil salinity before fertilizing"⟩]
    else []
  pure (nRecs ++ pRecs ++ kRecs ++ phRecs ++ ecRecs)

/-- `AgriculturalAI._analyze_optimal_timing`.  `np.std` comparisons on the
5-point forecast temperatures are transcribed to the population variance
against the squared thresholds (`std < 5 ↔ var < 25`, `std > 8 ↔ var > 64`),
exact since std ≥ 0. -/
def analyzeOptimalTiming (w : Option Weather) (fc : List Forecast) (cur : Reading) :
    Except Unit (List Rec) :=
  match w with
  | none => .ok []
  | some wd => do
    let currentTemp ← floatConv wd.temperature 25
    let windMs ← floatConv wd.windSpeed 0
    let windSpeed := windMs * 3.6
    let _humidityAir ← floatConv wd.humidity 50
    let _soilTemp ← floatConv cur.temperature currentTemp
    let sprayRecs : List Rec :=
      if windSpeed > 20 then [⟨"high", "Cancel all spraying operations"⟩]
      else if windSpeed > 15 then [⟨"medium", "Postpone spraying operations"⟩]
      else if (3 ≤ windSpeed ∧ windSpeed ≤ 10) ∧ currentTemp < 28 then
        [⟨"low", "Excellent spraying conditions"⟩]
      else []
    let tempRecs : List Rec :=
      if currentTemp > 35 then [⟨"high", "Avoid midday field operations"⟩]
      else if currentTemp < 5 then [⟨"medium", "Delay outdoor activities"⟩]
      else []
    let plantRecs ←
      if 5 ≤ fc.length then do
        let temps ← (fc.take 5).mapM (fun f => floatConv f.temperature currentTemp)
        let avgTemp := meanQ temps
        let stabilityVar := (temps.map (fun x => (x - avgTemp) ^ 2)).sum / (temps.length : ℚ)
        pure (if (15 ≤ avgTemp ∧ avgTemp ≤ 28) ∧ stabilityVar < 25 then
                [(⟨"low", "Favorable planting window"⟩ : Rec)]
              else if stabilityVar > 64 then [⟨"medium", "Wait for stable weather"⟩]
              else [])
      else pure []
    pure (sprayRecs ++ tempRecs ++ plantRecs)

/-- Accumulator step of the forecast scan in `_assess_agricultural_risks`:
(total_rain, max_wind in km/h, min_temp).  `min_temp` starts at the float
infinity, modelled as `none`. -/
def riskScanStep (acc : ℚ × ℚ × Option ℚ) (f : Forecast) : Except Unit (ℚ × ℚ × Option ℚ) := do
  let tr ← match f.rain with
    | some rv => addRain acc.1 rv
    | none =>
      match f.precipitation with
      | some rv => addRain acc.1 rv
      | none => pure acc.1
  let mw ← match f.windSpeed with
    | some v =>
      match v with
      | .num q => pure (max acc.2.1 (q * 3.6))
      | .bad => Except.error ()
    | none => pure acc.2.1
  let mt ← match f.temperature with
    | some v =>
      match v with
      | .num q => pure (some (match acc.2.2 with | none => q | some t => min t q))
      | .bad => Except.error ()
    | none => pure acc.2.2
  pure (tr, mw, mt)

/-- `AgriculturalAI._assess_agricultural_risks`. -/
def assessAgriculturalRisks (cur : Reading) (w : Option Weather) (fc : List Forecast) :
    Except Unit (List Risk) := do
  let temp ← floatConv cur.temperature 25
  let humidity ← floatConv cur.humidity 50
  let ph ← floatConv cur.ph 7
  let tempRisks : List Risk :=
    if temp > 38 then [⟨"high", "Severe Heat Stress"⟩]
    else if temp > 33 then [⟨"medium", "Heat Stress Warning"⟩]
    else if temp < 8 then [⟨"high", "Frost Risk"⟩]
    else []
  let diseaseRisks ← match w with
    | none => pure ([] : List Risk)
    | some wd => do
      let airTemp ← floatConv wd.temperature 25
      let airHumidity ← floatConv wd.humidity 50
      let fungal : List Risk :=
        if humidity > 75 ∧ (18 ≤ airTemp ∧ airTemp ≤ 30) ∧ airHumidity > 70 then
          let riskScore := ((humidity - 75) + (airHumidity - 70) + |airTemp - 24|) / 3
          [⟨if riskScore > 15 then "high" else "medium", "High Fungal Disease Risk"⟩]
        else []
      let bacterial : List Risk :=
        if humidity > 80 ∧ airTemp > 25 then [⟨"medium", "Bacterial Disease Risk"⟩] else []
      pure (fungal ++ bacterial)
  let phRisks : List Risk :=
    if ph < 5 ∨ ph > 8.5 then
      [⟨if ph < 4.5 ∨ ph > 9 then "high" else "medium", "Severe Nutrient Lockout"⟩]
    else []
  let forecastRisks ←
    if 0 < fc.length then do
      let scan ← (fc.take 8).foldlM riskScanStep ((0 : ℚ), (0 : ℚ), (none : Option ℚ))
      let totalRain := scan.1
      let maxWind := scan.2.1
      let minTemp := scan.2.2
      let rainRisks : List Risk :=
        if totalRain > 75 then [⟨"high", "Flood Risk"⟩]
        else if totalRain > 40 then [⟨"medium", "Heavy Rain Warning"⟩]
        else []
      let windRisks : List Risk :=
        if maxWind > 60 then [⟨"high", "Storm Damage Risk"⟩] else []
      let freezeRisks : List Risk :=
        match minTemp with
        | some t => if t < 2 then [⟨"high", "Freeze Warning"⟩] else []
        | none => []
      pure (rainRisks ++ windRisks ++ freezeRisks)
    else pure []
  pure (tempRisks ++ diseaseRisks ++ phRisks ++ forecastRisks)

/-- `AgriculturalAI._generate_general_recommendations`; the weather argument
is accepted and unused, as in the source.  The seasonal branch reads the
month of the parsed timestamp; an unparsable timestamp is swallowed. -/
def generateGeneralRecommendations (cur : Reading) (_w : Option Weather)
    (sd : Option SensorDataArg) : Except Unit (List Rec) := do
  let conductivity ← floatConv cur.conductivity 0
  let tds ← floatConv cur.tds 0
  let salinityRecs : List Rec :=
    if conductivity > 300 then [⟨"high", "Critical salinity management needed"⟩]
    else if conductivity > 200 then [⟨"medium", "Monitor and reduce soil salinity"⟩]
    else []
  let calibrationRecs : List Rec :=
    if |conductivity * 0.67 - tds| > 50 then [⟨"low", "Calibrate sensors"⟩] else []
  let dq : DQIn := (match sd with | some s => s.dataQuality | none => none).getD ⟨"unknown", 0⟩
  let healthRecs : List Rec :=
    if (dq.freshness = "poor" ∨ dq.freshness = "unknown") ∨ dq.completeness < 70 then
      [⟨"medium", "Check sensor system health"⟩]
    else []
  let seasonalRecs : List Rec :=
    match cur.timestamp with
    | .good _ month =>
      if month = 12 ∨ month = 1 ∨ month = 2 then [⟨"low", "Winter crop protection measures"⟩]
      else if month = 6 ∨ month = 7 ∨ month = 8 then [⟨"low", "Summer heat management"⟩]
      else []
    | _ => []
  pure (salinityRecs ++ calibrationRecs ++ healthRecs ++ seasonalRecs)

/-- `sensor_data.get("current", \x7b\x7d) if sensor_data else \x7b\x7d`. -/
def curOf : Option SensorDataArg → Reading
  | none => {}
  | some s => s.current.getD {}

/-- `AgriculturalAI.generate_recommendations`: short-circuits to a single
high-priority connectivity recommendation when the current reading is missing
or empty, otherwise fills the five categories from the analyzers; an error is
a Python exception escaping the engine. -/
def generateRecommendations (sd : Option SensorDataArg) (w : Option Weather)
    (fc : List Forecast) : Except Unit RecMap :=
  let currentData := curOf sd
  if currentData.isEmpty then
    .ok ⟨[], [], [], [], [⟨"high", "Check sensor connectivity"⟩]⟩
  else do
    let irrigationRecs ← analyzeIrrigationNeeds currentData w fc
    let fertilizationRecs ← analyzeFertilizationNeeds currentData
    let timingRecs ← analyzeOptimalTiming w fc currentData
    let riskRecs ← assessAgriculturalRisks currentData w fc
    let generalRecs ← generateGeneralRecommendations currentData w sd
    pure ⟨irrigationRecs, fertilizationRecs, timingRecs, riskRecs, generalRecs⟩

/-- An alert of `AlertSystem`, identified by its priority and `title`
literal. -/
structure Alert where
  priority : String
  title : String
  deriving DecidableEq, Repr

/-- Temperature block of `AlertSystem._check_sensor_alerts`:
`data.get("Temperature", 25)` is compared raw, so a present non-numeric value
raises.  Thresholds from `alert_thresholds["temperature"]`. -/
def temperatureAlerts (v : Option PyVal) : Except Unit (List Alert) :=
  match v.getD (.num 25) with
  | .bad => .error ()
  | .num temp =>
    .ok (if temp ≤ 10 then [⟨"critical", "Extreme Cold Temperature"⟩]
         else if temp ≥ 40 then [⟨"critical", "Extreme Heat Temperature"⟩]
         else if temp ≤ 15 then [⟨"warning", "Low Temperature Warning"⟩]
         else if temp ≥ 35 then [⟨"warning", "High Temperature Warning"⟩]
         else [])

/-- Soil-moisture block of `_check_sensor_alerts`, default 50. -/
def humidityAlerts (v : Option PyVal) : Except Unit (List Alert) :=
  match v.getD (.num 50) with
  | .bad => .error ()
  | .num humidity =>
    .ok (if humidity ≤ 20 then [⟨"critical", "Severe Drought Conditions"⟩]
         else if humidity ≤ 30 then [⟨"warning", "Low Soil Moisture"⟩]
         else if humidity ≥ 90 then [⟨"warning", "Waterlogged Conditions"⟩]
         else [])

/-- pH block of `_check_sensor_alerts`, default 7.0. -/
def phAlerts (v : Option PyVal) : Except Unit (List Alert) :=
  match v.getD (.num 7) with
  | .bad => .error ()
  | .num ph =>
    .ok (if ph ≤ 4.5 then [⟨"critical", "Extremely Acidic Soil"⟩]
         else if ph ≥ 9 then [⟨"critical", "Extremely Alkaline Soil"⟩]
         else if ph ≤ 5.5 ∨ ph ≥ 8 then [⟨"warning", "Suboptimal Soil pH"⟩]
         else [])

/-- Nitrogen block of `_check_sensor_alerts`, default 20. -/
def nitrogenAlerts (v : Option PyVal) : Except Unit (List Alert) :=
  match v.getD (.num 20) with
  | .bad => .error ()
  | .num nitrogen =>
    .ok (if nitrogen ≤ 5 then [⟨"critical", "Severe Nitrogen Deficiency"⟩]
         else if nitrogen ≤ 15 then [⟨"warning", "Low Nitrogen Levels"⟩]
         else [])

/-- Phosphorus block of `_check_sensor_alerts`, default 15. -/
def phosphorusAlerts (v : Option PyVal) : Except Unit (List Alert) :=
  match v.getD (.num 15) with
  | .bad => .error ()
  | .num phosphorus =>
    .ok (if phosphorus ≤ 5 then [⟨"warning", "Low Phosphorus Levels"⟩] else [])

/-- Potassium block of `_check_sensor_alerts`, default 20. -/
def potassiumAlerts (v : Option PyVal) : Except Unit (List Alert) :=
  match v.getD (.num 20) with
  | .bad => .error ()
  | .num potassium =>
    .ok (if potassium ≤ 5 then [⟨"warning", "Low Potassium Levels"⟩] else [])

/-- `AlertSystem._check_sensor_alerts`: the six per-field blocks in source
order.  A field missing from the dict is replaced by the in-band defaults
25 °C, 50 %, pH 7.0, 20 ppm N, 15 ppm P, 20 ppm K via `data.get`. -/
def checkSensorAlerts (data : Reading) : Except Unit (List Alert) := do
  let t ← temperatureAlerts data.temperature
  let h ← humidityAlerts data.humidity
  let p ← phAlerts data.ph
  let n ← nitrogenAlerts data.nitrogen
  let ph2 ← phosphorusAlerts data.phosphorus
  let k ← potassiumAlerts data.potassium
  pure (t ++ h ++ p ++ n ++ ph2 ++ k)

/-! ## Concrete instances used by counterexamples and witnesses -/

/-- A historical frame with no rows (and no columns). -/
def histNone : Hist := ⟨fun _ => false, []⟩

/-- A frame whose only column is Humidity. -/
def humidityCols : SField → Bool
  | .humidity => true
  | _ => false

/-- Humidity-only row. -/
def hrowH (v : ℚ) : HRow := { humidity := some v }

/-- Ten rows with the constant Humidity value 5: zero-variance history. -/
def histConst : Hist := ⟨humidityCols, List.replicate 10 (hrowH 5)⟩

/-- Current reading with Humidity 6 only. -/
def curH6 : Reading := { humidity := some (.num 6) }

/-- Ten humidity rows whose first five values are 0 and last five are 1: the
previous-period window [n−10:n−5] has mean exactly 0. -/
def histZeroPrev : Hist :=
  ⟨humidityCols, List.replicate 5 (hrowH 0) ++ List.replicate 5 (hrowH 1)⟩

/-- A current reading whose Humidity key holds a non-numeric string. -/
def sdBadHumidity : Option SensorDataArg :=
  some { current := some { humidity := some .bad } }

/-- The current reading of the spec's irrigation example: Humidity 22,
Temperature 25. -/
def curDry : Reading := { temperature := some (.num 25), humidity := some (.num 22) }

/-- Sensor-data argument wrapping `curDry`, without a data_quality entry. -/
def sdDry : Option SensorDataArg := some { current := some curDry }

/-- A reading carrying only a fresh timestamp (parsed instant 0, January) and
a Temperature value. -/
def rStamped : Reading := { temperature := some (.num 25), timestamp := .good 0 1 }

/-- Humidity column [1, null, 2, 4]. -/
def histStats : Hist := ⟨humidityCols, [hrowH 1, {}, hrowH 2, hrowH 4]⟩

/-- Python truthiness `not current_data` of the optional current argument of
`process_sensor_data`: missing (None) or an empty dict. -/
def currentMissing : Option Reading → Bool
  | none => true
  | some r => r.isEmpty

/-- Decidable equality of `Except` results, used to evaluate the embedded
functions on concrete inputs. -/
instance {ε α : Type} [DecidableEq ε] [DecidableEq α] : DecidableEq (Except ε α) := fun a b =>
  match a, b with
  | .error e, .error f =>
    if h : e = f then isTrue (congrArg Except.error h)
    else isFalse (fun hc => h (Except.error.inj hc))
  | .error _, .ok _ => isFalse (fun hc => Except.noConfusion hc)
  | .ok _, .error _ => isFalse (fun hc => Except.noConfusion hc)
  | .ok x, .ok y =>
    if h : x = y then isTrue (congrArg Except.ok h)
    else isFalse (fun hc => h (Except.ok.inj hc))

/-- A fully populated, in-range reading stamped at instant 0 (June). -/
def rFull : Reading :=
  ⟨some (.num 25), some (.num 50), some (.num 7), some (.num 30), some (.num 20),
   some (.num 30), some (.num 100), some (.num 65), .good 0 6⟩

/-- The category map the engine produces for `sdDry` with no weather and an
empty forecast. -/
def mDry : RecMap :=
  ⟨[⟨"medium", "Immediate deep irrigation required"⟩],
   [⟨"high", "Emergency nitrogen application"⟩, ⟨"high", "Phosphorus fertilization critical"⟩,
    ⟨"high", "Potassium supplementation urgent"⟩],
   [], [], [⟨"medium", "Check sensor system health"⟩]⟩

/-- The statistics entry of the humidity column of `histStats`: values
[1, 2, 4]. -/
def stWit : Stats := ⟨7/3, 2, some (7/3), 1, 4, 3/2, 3, 3⟩

/-! ## Helper lemmas -/

/-- Bind on `Except Unit` after a success. -/
theorem okBind {α β : Type} (a : α) (f : α → Except Unit β) :
    ((Except.ok a : Except Unit α) >>= f) = f a := rfl

/-- Bind on `Except Unit` after a failure. -/
theorem errBind {α β : Type} (f : α → Except Unit β) :
    ((Except.error () : Except Unit α) >>= f) = .error () := rfl

/-- Pure of the `Except Unit` monad. -/
theorem pureE {α : Type} (a : α) : (pure a : Except Unit α) = .ok a := rfl

/-- Inversion of a successful bind on `Except Unit`. -/
theorem bind_ok_ex {α β : Type} {A : Except Unit α} {f : α → Except Unit β} {b : β}
    (h : (A >>= f) = .ok b) : ∃ a, A = .ok a ∧ f a = .ok b := by
  cases A with
  | error e => exact absurd h (by cases e; simp [errBind])
  | ok a => exact ⟨a, rfl, h⟩

/-- Characterization of present-and-convertible values. -/
theorem isNumV_iff {v : Option PyVal} : isNumV v = true ↔ ∃ q, v = some (.num q) := by
  cases v with
  | none => simp [isNumV]
  | some pv => cases pv <;> simp [isNumV]

/-! ## Claim theorems -/

/-- C1: the claim says a zero-variance (constant) history must yield no
anomaly for any current value.  The code has no zero-std guard: with ten
constant Humidity points (sample std exactly 0) and current Humidity 6 ≠ 5,
the condition `|current − mean| > 2·std` holds and `_detect_anomalies` emits
an anomaly whose z-score is the IEEE infinity produced by the numpy division
by zero (a RuntimeWarning, not an exception), classified `high`. -/
theorem detectAnomalies_zeroVariance_emits :
    detectAnomalies curH6 histConst = .ok [⟨.humidity, 6, 5, 0, "high"⟩] := by with_unfolding_all decide

/-- C2: the claim says a zero previous-period mean must be guarded to the
default 0 percent change.  The code divides unguarded: on the humidity series
[0,0,0,0,0,1,1,1,1,1] the window [n−10:n−5] has mean exactly 0 and
`recent_change_pct` becomes the non-finite float (1−0)/0·100 = +inf, not 0. -/
theorem analyzeTrends_zeroPrevMean_nonfinite :
    (analyzeTrends histZeroPrev).map (fun p => (p.1, p.2.changePct)) =
      [(SField.humidity, (none : Option ℚ))] := by with_unfolding_all decide

/-- C3: the claim says the RecommendationEngine never raises on a
present-but-non-numeric field.  `_analyze_irrigation_needs` applies a bare
`float()` to `current_data.get("Humidity", 0)`, so a non-numeric Humidity
value raises ValueError/TypeError out of `generate_recommendations`. -/
theorem generateRecommendations_badHumidity_raises :
    generateRecommendations sdBadHumidity none [] = .error () := by with_unfolding_all decide

/-- C4 counterexample: at Humidity 22, Temperature 25 and an empty forecast
(zero upcoming rain) the irrigation category holds exactly one entry, but
zero entries of priority `high`: the immediate-irrigation branch assigns
`high` only when temperature exceeds 28 °C, and 25 °C gets `medium`. -/
theorem irrigationExample_no_high_entry :
    (generateRecommendations sdDry none []).map
      (fun m => (m.irrigation.length, m.irrigation.countP (fun r => r.priority == "high"))) =
      .ok (1, 0) := by with_unfolding_all decide

/-- C5: a missing or empty current reading short-circuits
`generate_recommendations` to a single high-priority connectivity
recommendation in `general` and empty irrigation, fertilization, timing and
risk categories. -/
theorem missingCurrent_shortCircuit (sd : Option SensorDataArg) (w : Option Weather)
    (fc : List Forecast) (h : (curOf sd).isEmpty = true) :
    generateRecommendations sd w fc =
      .ok ⟨[], [], [], [], [⟨"high", "Check sensor connectivity"⟩]⟩ := by
  simp only [generateRecommendations, h, if_true]

/-- Witness for C5 at the concrete input `sensor_data = None`. -/
theorem missingCurrent_shortCircuit_witness :
    (curOf none).isEmpty = true ∧
      generateRecommendations none none [] =
        .ok ⟨[], [], [], [], [⟨"high", "Check sensor connectivity"⟩]⟩ :=
  ⟨rfl, missingCurrent_shortCircuit none none [] rfl⟩

/-- C9: a missing or empty current reading makes `process_sensor_data` return
the empty dict, with none of the five ProcessedData keys; in particular the
offline data_quality branch of `_assess_data_quality` is never reached
through `process_sensor_data`. -/
theorem process_missingCurrent_empty (now : ℚ) (cur : Option Reading) (hist : Hist)
    (h : currentMissing cur = true) : processSensorData now cur hist = .ok none := by
  cases cur with
  | none => rfl
  | some r =>
    simp only [currentMissing] at h
    simp only [processSensorData, h, if_true]

/-- Witness for C9 at the concrete input `current_data = None`. -/
theorem process_missingCurrent_empty_witness :
    currentMissing none = true ∧ processSensorData 0 none histNone = .ok none :=
  ⟨rfl, process_missingCurrent_empty 0 none histNone rfl⟩

/-- C6 counterexample: `process` reads the wall clock (`datetime.now()` inside
`_assess_data_quality`), so two calls with identical current reading and
identical (empty) history return different ProcessedData when made 1 minute
versus 10 minutes after the reading: freshness `excellent` versus `good`.
The wall clock is the explicit first argument of the embedding. -/
theorem process_clock_dependent :
    (processSensorData 1 (some rStamped) histNone).map
        (Option.map (fun p => p.dataQuality.freshness)) = .ok (some "excellent") ∧
      (processSensorData 10 (some rStamped) histNone).map
        (Option.map (fun p => p.dataQuality.freshness)) = .ok (some "good") :=
  ⟨by with_unfolding_all decide, by with_unfolding_all decide⟩

/-- C10: `_check_sensor_alerts` reads every sensor field with an in-band
default (`data.get`: 25 °C, 50 %, pH 7.0, 20 ppm N, 15 ppm P, 20 ppm K), and
each default falls strictly inside every alert band of its ladder, so a
missing field produces no alert from its block (the engine output is the
concatenation of the six blocks). -/
theorem missingField_no_sensor_alert (r : Reading) :
    (r.temperature = none → temperatureAlerts r.temperature = .ok []) ∧
      (r.humidity = none → humidityAlerts r.humidity = .ok []) ∧
      (r.ph = none → phAlerts r.ph = .ok []) ∧
      (r.nitrogen = none → nitrogenAlerts r.nitrogen = .ok []) ∧
      (r.phosphorus = none → phosphorusAlerts r.phosphorus = .ok []) ∧
      (r.potassium = none → potassiumAlerts r.potassium = .ok []) := by
  refine ⟨fun h => ?_, fun h => ?_, fun h => ?_, fun h => ?_, fun h => ?_, fun h => ?_⟩ <;>
    rw [h] <;> with_unfolding_all decide

/-- Witness for C10 at the empty reading, discharging all six absences. -/
theorem missingField_no_sensor_alert_witness :
    temperatureAlerts ({} : Reading).temperature = .ok [] ∧
      humidityAlerts ({} : Reading).humidity = .ok [] ∧
      phAlerts ({} : Reading).ph = .ok [] ∧
      nitrogenAlerts ({} : Reading).nitrogen = .ok [] ∧
      phosphorusAlerts ({} : Reading).phosphorus = .ok [] ∧
      potassiumAlerts ({} : Reading).potassium = .ok [] := by
  have h := missingField_no_sensor_alert {}
  exact ⟨h.1 rfl, h.2.1 rfl, h.2.2.1 rfl, h.2.2.2.1 rfl, h.2.2.2.2.1 rfl, h.2.2.2.2.2 rfl⟩

/-- C7: a reading with all 8 expected fields present and float-convertible,
whose timestamp equals the wall-clock instant, gets freshness `excellent`
(age 0 < 5 minutes) and completeness 100, the blend
0.6·(present/8)·100 + 0.4·(critical present/3)·100 of `_assess_data_quality`
(the in-range validity of the values is not even needed for these two
outputs, which only count presence and convertibility). -/
theorem fullReading_fresh_complete (t : ℚ) (month : ℕ) (r : Reading) (hist : Hist)
    (h1 : isNumV r.temperature = true) (h2 : isNumV r.humidity = true)
    (h3 : isNumV r.ph = true) (h4 : isNumV r.nitrogen = true)
    (h5 : isNumV r.phosphorus = true) (h6 : isNumV r.potassium = true)
    (h7 : isNumV r.conductivity = true) (h8 : isNumV r.tds = true)
    (hts : r.timestamp = TS.good t month) :
    (assessDataQuality t r hist).freshness = "excellent" ∧
      (assessDataQuality t r hist).completeness = 100 := by
  obtain ⟨q1, e1⟩ := isNumV_iff.mp h1
  obtain ⟨q2, e2⟩ := isNumV_iff.mp h2
  obtain ⟨q3, e3⟩ := isNumV_iff.mp h3
  obtain ⟨q4, e4⟩ := isNumV_iff.mp h4
  obtain ⟨q5, e5⟩ := isNumV_iff.mp h5
  obtain ⟨q6, e6⟩ := isNumV_iff.mp h6
  obtain ⟨q7, e7⟩ := isNumV_iff.mp h7
  obtain ⟨q8, e8⟩ := isNumV_iff.mp h8
  have e0 : r.isEmpty = false := by simp [Reading.isEmpty, e1]
  constructor
  · simp only [assessDataQuality, e0, Bool.false_eq_true, if_false, timestampInfo, hts, sub_self]
    norm_num [freshnessInfo]
  · simp only [assessDataQuality, e0, Bool.false_eq_true, if_false, timestampInfo, hts,
      allFields, criticalFields, Reading.get, e1, e2, e3, e4, e5, e6, e7, e8, isNumV,
      inCriticalFields, List.filter_cons, List.filter_nil]
    norm_num [show (List.filter inCriticalFields
      [SField.temperature, SField.humidity, SField.ph, SField.nitrogen, SField.phosphorus,
       SField.potassium, SField.conductivity, SField.tds]).length = 3 from rfl]

/-- Witness for C7 at a fully populated reading stamped at the current
instant. -/
theorem fullReading_fresh_complete_witness :
    isNumV rFull.temperature = true ∧
      (assessDataQuality 0 rFull histNone).freshness = "excellent" ∧
        (assessDataQuality 0 rFull histNone).completeness = 100 :=
  ⟨rfl, fullReading_fresh_complete 0 6 rFull histNone rfl rfl rfl rfl rfl rfl rfl rfl rfl⟩

/-- The freshness triple only depends on the age through its whole-minute
floor: two nonnegative ages with the same floor select the same bucket (the
cutoffs 5/15/60/360 are integers) and render the same minute count. -/
theorem freshnessInfo_congr {m1 m2 : ℚ} (h1 : 0 ≤ m1) (h2 : 0 ≤ m2)
    (hf : ⌊m1⌋ = ⌊m2⌋) : freshnessInfo m1 = freshnessInfo m2 := by
  have key : ∀ k : ℤ, (m1 < (k : ℚ)) ↔ (m2 < (k : ℚ)) := fun k => by
    rw [← Int.floor_lt, ← Int.floor_lt, hf]
  have hlu : pyTrunc m1 = pyTrunc m2 := by
    unfold pyTrunc
    rw [if_pos h1, if_pos h2, hf]
  have k5 := key 5
  have k15 := key 15
  have k60 := key 60
  have k360 := key 360
  push_cast at k5 k15 k60 k360
  unfold freshnessInfo
  rw [hlu]
  simp only [k5, k15, k60, k360]

/-- The timestamp triple of `_assess_data_quality` is clock-independent for
absent or unparsable timestamps, and depends only on the floored age for
parsed ones. -/
theorem timestampInfo_congr (now1 now2 : ℚ) (ts : TS)
    (h : ∀ t m, ts = TS.good t m →
      0 ≤ now1 - t ∧ 0 ≤ now2 - t ∧ ⌊now1 - t⌋ = ⌊now2 - t⌋) :
    timestampInfo now1 ts = timestampInfo now2 ts := by
  cases ts with
  | absent => rfl
  | bad => rfl
  | good t m =>
    obtain ⟨a, b, c⟩ := h t m rfl
    exact freshnessInfo_congr a b c

/-- The quality dict depends on the wall clock only through the freshness
triple. -/
theorem assessDataQuality_clock_congr (now1 now2 : ℚ) (r : Reading) (hist : Hist)
    (h : ∀ t m, r.timestamp = TS.good t m →
      0 ≤ now1 - t ∧ 0 ≤ now2 - t ∧ ⌊now1 - t⌋ = ⌊now2 - t⌋) :
    assessDataQuality now1 r hist = assessDataQuality now2 r hist := by
  have hts := timestampInfo_congr now1 now2 r.timestamp h
  unfold assessDataQuality
  rw [hts]

/-- C6, amended: `process` is not a pure function of (current, history)
alone — the wall clock read by `datetime.now()` is a hidden third input (see
the counterexample) — but it is deterministic once that clock is fixed, and
two calls whose clock instants give the reading the same nonnegative
whole-minute age produce identical ProcessedData: statistics, trends and
anomalies never read the clock, and the quality dict reads it only through
the floored minute age. -/
theorem process_clock_determinism (now1 now2 : ℚ) (cur : Option Reading) (hist : Hist)
    (h : ∀ r t m, cur = some r → r.timestamp = TS.good t m →
      0 ≤ now1 - t ∧ 0 ≤ now2 - t ∧ ⌊now1 - t⌋ = ⌊now2 - t⌋) :
    processSensorData now1 cur hist = processSensorData now2 cur hist := by
  cases cur with
  | none => rfl
  | some r =>
    have ha : assessDataQuality now1 r hist = assessDataQuality now2 r hist :=
      assessDataQuality_clock_congr now1 now2 r hist (fun t m ht => h r t m rfl ht)
    simp only [processSensorData, ha]

/-- Witness for the amended C6 at clock instants 2 and 5/2 minutes after the
reading. -/
theorem process_clock_determinism_witness :
    processSensorData 2 (some rStamped) histNone = processSensorData (5/2) (some rStamped) histNone := by
  apply process_clock_determinism
  intro r t m hr ht
  injection hr with hr
  subst hr
  have ht2 : TS.good 0 1 = TS.good t m := ht
  injection ht2 with ht3 ht4
  subst ht3
  refine ⟨by norm_num, by norm_num, ?_⟩
  with_unfolding_all decide

/-- C4, amended: for the reading Humidity 22, Temperature 25 and any forecast
with zero summed upcoming rain, whenever the engine returns (no conversion
raised), its irrigation category is exactly one immediate-deep-irrigation
entry of priority `medium` — not `high`: the branch assigns `high` only when
the temperature exceeds 28 °C. -/
theorem irrigationExample_single_medium (w : Option Weather) (fc : List Forecast) (m : RecMap)
    (hrain : upcomingRain fc = .ok 0)
    (hok : generateRecommendations sdDry w fc = .ok m) :
    m.irrigation = [⟨"medium", "Immediate deep irrigation required"⟩] := by
  simp only [generateRecommendations, curOf, sdDry, Option.getD,
    show curDry.isEmpty = false from rfl, Bool.false_eq_true, if_false] at hok
  obtain ⟨irr, hirr, hok⟩ := bind_ok_ex hok
  obtain ⟨fert, hfert, hok⟩ := bind_ok_ex hok
  obtain ⟨tim, htim, hok⟩ := bind_ok_ex hok
  obtain ⟨risk, hrisk, hok⟩ := bind_ok_ex hok
  obtain ⟨gen, hgen, hok⟩ := bind_ok_ex hok
  have hm : m = ⟨irr, fert, tim, risk, gen⟩ := (Except.ok.inj hok).symm
  simp only [analyzeIrrigationNeeds,
    show floatConv curDry.humidity 0 = Except.ok 22 from rfl,
    show floatConv curDry.temperature 25 = Except.ok 25 from rfl,
    hrain, okBind] at hirr
  cases w with
  | none =>
    simp only [okBind, pureE] at hirr
    norm_num [Except.ok.injEq] at hirr
    rw [hm]
    exact hirr.symm
  | some wd =>
    obtain ⟨ah, hah, hirr⟩ := bind_ok_ex hirr
    simp only [pureE] at hirr
    norm_num [Except.ok.injEq] at hirr
    rw [hm]
    exact hirr.symm

/-- Witness for the amended C4: no weather, empty forecast. -/
theorem irrigationExample_single_medium_witness :
    upcomingRain [] = .ok 0 ∧ generateRecommendations sdDry none [] = .ok mDry ∧
      mDry.irrigation = [⟨"medium", "Immediate deep irrigation required"⟩] :=
  ⟨rfl, by with_unfolding_all decide,
   irrigationExample_single_medium none [] mDry rfl (by with_unfolding_all decide)⟩

/-- Sorted access is monotone in the index. -/
theorem sorted_getD_mono {s : List ℚ} (hs : s.Sorted (· ≤ ·)) {a b : ℕ} (hab : a ≤ b)
    (hb : b < s.length) : s.getD a 0 ≤ s.getD b 0 := by
  have ha : a < s.length := lt_of_le_of_lt hab hb
  rw [List.getD_eq_get s 0 ha, List.getD_eq_get s 0 hb]
  exact hs.rel_get_of_le (Fin.mk_le_mk.mpr hab)

/-- The head of a sorted list bounds every member from below. -/
theorem getD_zero_le_mem {s : List ℚ} (hs : s.Sorted (· ≤ ·)) {x : ℚ} (hx : x ∈ s) :
    s.getD 0 0 ≤ x := by
  obtain ⟨i, hi⟩ := List.mem_iff_get.mp hx
  rw [← hi, show s.get i = s.getD i.1 0 from (List.getD_eq_get s 0 i.2).symm]
  exact sorted_getD_mono hs (Nat.zero_le _) i.2

/-- The last entry of a sorted list bounds every member from above. -/
theorem mem_le_getD_last {s : List ℚ} (hs : s.Sorted (· ≤ ·)) {x : ℚ} (hx : x ∈ s) :
    x ≤ s.getD (s.length - 1) 0 := by
  obtain ⟨i, hi⟩ := List.mem_iff_get.mp hx
  have hl : s.length - 1 < s.length := Nat.sub_lt i.pos Nat.one_pos
  have hi1 : i.1 ≤ s.length - 1 := Nat.le_sub_one_of_lt i.2
  rw [← hi, show s.get i = s.getD i.1 0 from (List.getD_eq_get s 0 i.2).symm]
  exact sorted_getD_mono hs hi1 hl

/-- A pointwise upper bound bounds the list sum by length times the bound. -/
theorem listSum_le {l : List ℚ} {M : ℚ} (h : ∀ x ∈ l, x ≤ M) :
    l.sum ≤ (l.length : ℚ) * M := by
  induction l with
  | nil => simp
  | cons a tl ih =>
    have ha := h a (List.mem_cons_self a tl)
    have htl := ih (fun x hx => h x (List.mem_cons_of_mem a hx))
    simp only [List.sum_cons, List.length_cons]
    push_cast
    have hexp : ((tl.length : ℚ) + 1) * M = (tl.length : ℚ) * M + M := by ring
    rw [hexp]
    linarith

/-- A pointwise lower bound bounds the list sum from below. -/
theorem le_listSum {l : List ℚ} {m : ℚ} (h : ∀ x ∈ l, m ≤ x) :
    (l.length : ℚ) * m ≤ l.sum := by
  induction l with
  | nil => simp
  | cons a tl ih =>
    have ha := h a (List.mem_cons_self a tl)
    have htl := ih (fun x hx => h x (List.mem_cons_of_mem a hx))
    simp only [List.sum_cons, List.length_cons]
    push_cast
    have hexp : ((tl.length : ℚ) + 1) * m = (tl.length : ℚ) * m + m := by ring
    rw [hexp]
    linarith

/-- The mean of a nonempty list lies between any pointwise bounds. -/
theorem meanQ_bounds {xs : List ℚ} (hne : xs ≠ []) {a b : ℚ}
    (hlb : ∀ x ∈ xs, a ≤ x) (hub : ∀ x ∈ xs, x ≤ b) :
    a ≤ meanQ xs ∧ meanQ xs ≤ b := by
  have hn0 : 0 < xs.length := List.length_pos.mpr hne
  have hn : 0 < (xs.length : ℚ) := by exact_mod_cast hn0
  constructor
  · rw [meanQ, le_div_iff hn]
    have := le_listSum hlb
    linarith
  · rw [meanQ, div_le_iff hn]
    have := listSum_le hub
    linarith

/-- The interpolation index stays within the list. -/
theorem toNat_floor_le {h : ℚ} {n : ℕ} (h0 : 0 ≤ h) (hub : h ≤ (n : ℚ) - 1) (hn : 1 ≤ n) :
    (⌊h⌋).toNat ≤ n - 1 := by
  have h1 : ⌊h⌋ ≤ (n : ℤ) - 1 := by
    have hcast : h ≤ (((n : ℤ) - 1 : ℤ) : ℚ) := by push_cast; linarith
    have := Int.floor_mono hcast
    rwa [Int.floor_intCast] at this
  omega

/-- Cast of the truncated floor of a nonnegative rational. -/
theorem cast_toNat_floor {h : ℚ} (h0 : 0 ≤ h) : (((⌊h⌋).toNat : ℕ) : ℚ) = (⌊h⌋ : ℚ) := by
  have := Int.toNat_of_nonneg (Int.floor_nonneg.mpr h0)
  exact_mod_cast congrArg (fun z : ℤ => (z : ℚ)) this

/-- The interpolated value is at least the lower order statistic. -/
theorem interpSorted_lb {s : List ℚ} (hs : s.Sorted (· ≤ ·)) {h : ℚ} (h0 : 0 ≤ h)
    (hub : h ≤ (s.length : ℚ) - 1) (hn : s ≠ []) :
    s.getD (⌊h⌋).toNat 0 ≤ interpSorted s h := by
  have hn1 : 1 ≤ s.length := List.length_pos.mpr hn
  have hiq : (((⌊h⌋).toNat : ℕ) : ℚ) = (⌊h⌋ : ℚ) := cast_toNat_floor h0
  have hile : (⌊h⌋).toNat ≤ s.length - 1 := toNat_floor_le h0 hub hn1
  have hlast : s.length - 1 < s.length := Nat.sub_lt hn1 Nat.one_pos
  have hj : min ((⌊h⌋).toNat + 1) (s.length - 1) < s.length :=
    lt_of_le_of_lt (min_le_right _ _) hlast
  have hij : (⌊h⌋).toNat ≤ min ((⌊h⌋).toNat + 1) (s.length - 1) :=
    le_min (Nat.le_succ _) hile
  have hab := sorted_getD_mono hs hij hj
  have hg : 0 ≤ h - (((⌊h⌋).toNat : ℕ) : ℚ) := by
    rw [hiq]; exact sub_nonneg.mpr (Int.floor_le h)
  simp only [interpSorted]
  exact le_add_of_nonneg_right (mul_nonneg hg (sub_nonneg.mpr hab))

/-- The interpolated value is at most the upper order statistic. -/
theorem interpSorted_ub {s : List ℚ} (hs : s.Sorted (· ≤ ·)) {h : ℚ} (h0 : 0 ≤ h)
    (hub : h ≤ (s.length : ℚ) - 1) (hn : s ≠ []) :
    interpSorted s h ≤ s.getD (min ((⌊h⌋).toNat + 1) (s.length - 1)) 0 := by
  have hn1 : 1 ≤ s.length := List.length_pos.mpr hn
  have hiq : (((⌊h⌋).toNat : ℕ) : ℚ) = (⌊h⌋ : ℚ) := cast_toNat_floor h0
  have hile : (⌊h⌋).toNat ≤ s.length - 1 := toNat_floor_le h0 hub hn1
  have hlast : s.length - 1 < s.length := Nat.sub_lt hn1 Nat.one_pos
  have hj : min ((⌊h⌋).toNat + 1) (s.length - 1) < s.length :=
    lt_of_le_of_lt (min_le_right _ _) hlast
  have hij : (⌊h⌋).toNat ≤ min ((⌊h⌋).toNat + 1) (s.length - 1) :=
    le_min (Nat.le_succ _) hile
  have hab := sorted_getD_mono hs hij hj
  have hg1 : h - (((⌊h⌋).toNat : ℕ) : ℚ) ≤ 1 := by
    rw [hiq]
    have := Int.lt_floor_add_one h
    linarith
  have key : (h - (((⌊h⌋).toNat : ℕ) : ℚ)) * (s.getD (min ((⌊h⌋).toNat + 1) (s.length - 1)) 0 - s.getD (⌊h⌋).toNat 0) ≤
      1 * (s.getD (min ((⌊h⌋).toNat + 1) (s.length - 1)) 0 - s.getD (⌊h⌋).toNat 0) :=
    mul_le_mul_of_nonneg_right hg1 (sub_nonneg.mpr hab)
  simp only [interpSorted]
  linarith

/-- Monotonicity of order-statistic interpolation in the position. -/
theorem interpSorted_mono {s : List ℚ} (hs : s.Sorted (· ≤ ·)) (hn : s ≠ []) {h1 h2 : ℚ}
    (h10 : 0 ≤ h1) (h12 : h1 ≤ h2) (h2ub : h2 ≤ (s.length : ℚ) - 1) :
    interpSorted s h1 ≤ interpSorted s h2 := by
  have h20 : 0 ≤ h2 := le_trans h10 h12
  have h1ub : h1 ≤ (s.length : ℚ) - 1 := le_trans h12 h2ub
  have hn1 : 1 ≤ s.length := List.length_pos.mpr hn
  have hi12 : (⌊h1⌋).toNat ≤ (⌊h2⌋).toNat := Int.toNat_le_toNat (Int.floor_mono h12)
  rcases Nat.lt_or_ge (⌊h1⌋).toNat (⌊h2⌋).toNat with hlt | hge
  · have hub1 := interpSorted_ub hs h10 h1ub hn
    have hi2lt : (⌊h2⌋).toNat < s.length :=
      lt_of_le_of_lt (toNat_floor_le h20 h2ub hn1) (Nat.sub_lt hn1 Nat.one_pos)
    have hmid : s.getD (min ((⌊h1⌋).toNat + 1) (s.length - 1)) 0 ≤ s.getD (⌊h2⌋).toNat 0 := by
      apply sorted_getD_mono hs _ hi2lt
      exact le_trans (min_le_left _ _) hlt
    have hlb2 := interpSorted_lb hs h20 h2ub hn
    linarith
  · have heq : (⌊h1⌋).toNat = (⌊h2⌋).toNat := le_antisymm hi12 hge
    have hile : (⌊h2⌋).toNat ≤ s.length - 1 := toNat_floor_le h20 h2ub hn1
    have hlast : s.length - 1 < s.length := Nat.sub_lt hn1 Nat.one_pos
    have hj : min ((⌊h2⌋).toNat + 1) (s.length - 1) < s.length :=
      lt_of_le_of_lt (min_le_right _ _) hlast
    have hij : (⌊h2⌋).toNat ≤ min ((⌊h2⌋).toNat + 1) (s.length - 1) :=
      le_min (Nat.le_succ _) hile
    have hab := sorted_getD_mono hs hij hj
    have hgle : h1 - (((⌊h2⌋).toNat : ℕ) : ℚ) ≤ h2 - (((⌊h2⌋).toNat : ℕ) : ℚ) := by linarith
    have key := mul_le_mul_of_nonneg_right hgle (sub_nonneg.mpr hab)
    simp only [interpSorted, heq]
    linarith

/-- The linear quantile is monotone in the quantile level on [0, 1]. -/
theorem quantileLinear_mono (xs : List ℚ) (hne : xs ≠ []) {p q : ℚ} (h0 : 0 ≤ p)
    (hpq : p ≤ q) (h1 : q ≤ 1) : quantileLinear xs p ≤ quantileLinear xs q := by
  have hsort := List.sorted_insertionSort (α := ℚ) (· ≤ ·) xs
  have hsne : xs.insertionSort (· ≤ ·) ≠ [] := by
    intro hemp
    apply hne
    have hperm := List.perm_insertionSort (α := ℚ) (· ≤ ·) xs
    rw [hemp] at hperm
    exact hperm.symm.eq_nil
  have hlen1 : 1 ≤ (xs.insertionSort (· ≤ ·)).length := List.length_pos.mpr hsne
  have hlen : 0 ≤ ((xs.insertionSort (· ≤ ·)).length : ℚ) - 1 := by
    have : (1 : ℚ) ≤ ((xs.insertionSort (· ≤ ·)).length : ℚ) := by exact_mod_cast hlen1
    linarith
  simp only [quantileLinear]
  apply interpSorted_mono hsort hsne
  · exact mul_nonneg h0 hlen
  · exact mul_le_mul_of_nonneg_right hpq hlen
  · calc q * (((xs.insertionSort (· ≤ ·)).length : ℚ) - 1) ≤
        1 * (((xs.insertionSort (· ≤ ·)).length : ℚ) - 1) :=
          mul_le_mul_of_nonneg_right h1 hlen
      _ = ((xs.insertionSort (· ≤ ·)).length : ℚ) - 1 := one_mul _

/-- Order relations of one statistics entry. -/
theorem statsOfValues_bounds {xs : List ℚ} {st : Stats} (h : statsOfValues xs = some st) :
    st.min ≤ st.mean ∧ st.mean ≤ st.max ∧ st.q25 ≤ st.median ∧ st.median ≤ st.q75 := by
  unfold statsOfValues at h
  by_cases he : xs.isEmpty
  · rw [if_pos he] at h
    exact absurd h (by simp)
  · rw [if_neg he] at h
    have hne : xs ≠ [] := by simpa [List.isEmpty_iff] using he
    have hst := Option.some.inj h
    subst hst
    have hsort := List.sorted_insertionSort (α := ℚ) (· ≤ ·) xs
    have hperm := List.perm_insertionSort (α := ℚ) (· ≤ ·) xs
    have hlb : ∀ x ∈ xs, (xs.insertionSort (· ≤ ·)).getD 0 0 ≤ x := fun x hx =>
      getD_zero_le_mem hsort (hperm.mem_iff.mpr hx)
    have hub : ∀ x ∈ xs,
        x ≤ (xs.insertionSort (· ≤ ·)).getD ((xs.insertionSort (· ≤ ·)).length - 1) 0 :=
      fun x hx => mem_le_getD_last hsort (hperm.mem_iff.mpr hx)
    have hm := meanQ_bounds hne hlb hub
    refine ⟨hm.1, hm.2, ?_, ?_⟩
    · exact quantileLinear_mono xs hne (by norm_num) (by norm_num) (by norm_num)
    · exact quantileLinear_mono xs hne (by norm_num) (by norm_num) (by norm_num)

/-- C8: every per-field entry the StatisticsEngine emits (a present column
with at least one non-null value) satisfies min ≤ mean ≤ max and
q25 ≤ median ≤ q75. -/
theorem statisticsEngine_bounds (hist : Hist) (f : SField) (st : Stats)
    (h : (f, st) ∈ calculateStatistics hist) :
    st.min ≤ st.mean ∧ st.mean ≤ st.max ∧ st.q25 ≤ st.median ∧ st.median ≤ st.q75 := by
  unfold calculateStatistics at h
  rw [List.mem_filterMap] at h
  obtain ⟨g, _, hmap⟩ := h
  by_cases hc : hist.cols g
  · rw [if_pos hc] at hmap
    obtain ⟨s', hs', heq⟩ := Option.map_eq_some'.mp hmap
    injection heq with h1 h2
    subst h2
    exact statsOfValues_bounds hs'
  · rw [if_neg hc] at hmap
    exact absurd hmap (by simp)

/-- Witness for C8 on the humidity column [1, null, 2, 4]. -/
theorem statisticsEngine_bounds_witness :
    ((SField.humidity, stWit) ∈ calculateStatistics histStats) ∧
      (stWit.min ≤ stWit.mean ∧ stWit.mean ≤ stWit.max ∧
        stWit.q25 ≤ stWit.median ∧ stWit.median ≤ stWit.q75) :=
  ⟨by with_unfolding_all decide,
   statisticsEngine_bounds histStats .humidity stWit (by with_unfolding_all decide)⟩
